import Mathlib

/-!
Verification development for the environment-context and remote-execution
bridging logic of an Information Server commons library.

The definitions below are a shallow embedding of
`src/classes/environment-context.js`.  External effects (shell execution,
local copy/remove, file writes and appends) are made explicit: every
operation returns its result together with the ordered list of external
effects it performed, and external process results are supplied by a
`World` of oracles standing for the synchronous `shelljs` calls.
-/

/-- Result object returned by a `shell.exec` call: exit code, captured
standard output and standard error. -/
structure ExecResult where
  code : Int
  stdout : String
  stderr : String
deriving Repr, DecidableEq

/-- Result object as observed by callers of the bridge operations.  The
fail-fast branches of the source return an object literal with only `code`
and `stderr` set, so `stdout` is optional (`none` models the absent
property). -/
structure OpResult where
  code : Int
  stdout : Option String
  stderr : String
deriving Repr, DecidableEq

/-- View a full `shell.exec` result as a caller-observed result. -/
def ExecResult.toOp (r : ExecResult) : OpResult :=
  { code := r.code, stdout := some r.stdout, stderr := r.stderr }

/-- External effects performed by the environment context, in order. -/
inductive Effect where
  | spawn (cmd : String)
  | localCopy (source target : String)
  | localRemove (file : String)
  | writeFile (file contents : String)
  | appendFile (file contents : String)
deriving Repr, DecidableEq

/-- Oracles for the synchronous external calls made by the source:
`shell.exec`, `shell.cp` and `shell.rm`. -/
structure World where
  exec : String → ExecResult
  cp : String → String → ExecResult
  rm : String → ExecResult

/-- Splits a list at the first occurrence of `pat`, returning the parts
before and after the occurrence (the JS `indexOf` discipline: an empty
pattern occurs at position 0). -/
def splitAtFirstOcc (pat : List Char) : List Char → Option (List Char × List Char)
  | [] => if List.isPrefixOf pat ([] : List Char) then some ([], []) else none
  | c :: cs =>
    if List.isPrefixOf pat (c :: cs) then some ([], List.drop pat.length (c :: cs))
    else (splitAtFirstOcc pat cs).map (fun q => (c :: q.1, q.2))

/-- JS `String.prototype.replace(pat, rep)` with a string pattern: replaces
only the first occurrence, and returns the string unchanged when the
pattern does not occur. -/
def jsReplaceFirst (s pat rep : String) : String :=
  match splitAtFirstOcc pat.data s.data with
  | some q => String.mk q.1 ++ rep ++ String.mk q.2
  | none => s

/-- JS `String.prototype.startsWith`. -/
def jsStartsWith (s p : String) : Bool := List.isPrefixOf p.data s.data

/-- JS `String.prototype.split` with a one-character separator, as used by
the source (separators are always the single characters newline, equals or
colon there); accumulator-based so the kernel can evaluate it. -/
def jsSplitAux (sep : Char) : List Char → List Char → List String
  | [], acc => [String.mk acc.reverse]
  | c :: cs, acc =>
    if c = sep then String.mk acc.reverse :: jsSplitAux sep cs []
    else jsSplitAux sep cs (c :: acc)

/-- JS `s.split(sep)` for a one-character separator. -/
def jsSplit (s : String) (sep : Char) : List String := jsSplitAux sep s.data []

/-- JS `s.substring(s.indexOf(c) + 1)` for the equals sign: everything after
the first `=`, or the whole string when there is none (`indexOf` is `-1`). -/
def jsSubstringAfterFirstEq (l : String) : String :=
  match splitAtFirstOcc ['='] l.data with
  | some q => String.mk q.2
  | none => l

/-- JS `String.prototype.toUpperCase` (ASCII range, as used on hostnames). -/
def jsToUpperCase (s : String) : String := String.mk (s.data.map Char.toUpper)

/-- JS string coercion applied when an `undefined` value is concatenated. -/
def jsStr : Option String → String
  | some s => s
  | none => "undefined"

/-- One `HistoricalEvent` node with `installType="PATCH"`, as pushed onto
`_patchHistory` by the constructor. -/
structure PatchEvent where
  patchId : String
  patchDate : String
deriving Repr, DecidableEq

/-- Result of the five XPath selections the constructor performs on a parsed
`Version.xml` document.  A field is `none` when the corresponding node list
is empty, in which case the source's `[0].getAttribute(...)` access throws;
`some v` carries the attribute value of the first selected node. -/
structure InventoryXML where
  installType : Option String
  patches : List PatchEvent
  products : List String
  isConsolePort : Option String
  isfServerHost : Option String
  isfAgentHost : Option String
deriving Repr, DecidableEq

/-- State of an `EnvironmentContext` instance.  Field names follow the
source's instance properties; `authFileContents` models the contents of the
file at `_authFile` on disk, and the source's `_tierToHosts` object is
modelled by the two optional fields (absent key = `none`). -/
structure EnvironmentContext where
  _bOnHost : Bool
  _bHaveVersionXML : Bool
  _ishome : String
  _dshome : String
  _authFile : String
  authFileContents : String
  _remoteConnectString : String
  _remoteCopyString : String
  _username : String
  _password : String
  _clearPassword : String
  _currentVersion : String
  _isConsolePort : String
  tierDomain : Option String
  tierEngine : Option String
  _patchHistory : List PatchEvent
  _installedModules : List String
deriving Repr, DecidableEq

namespace EnvironmentContext

/-- The message of the TypeError thrown when an XPath selection is empty and
the constructor dereferences its missing first element. -/
def typeErrorGetAttribute : String :=
  "TypeError: Cannot read property getAttribute of undefined"

/-- Lines 93-112 of the constructor: processing of the (possibly absent)
parsed `Version.xml` document.  `none` models `_versionXML === null`
(retrieval failed: the context is left on the credential-file-only path),
`some xml` models a parsed document; a missing required node makes the
constructor throw, modelled by `Except.error`. -/
def applyInventory (ctx : EnvironmentContext) : Option InventoryXML → Except String EnvironmentContext
  | none => Except.ok ctx
  | some xml =>
    let ctx := { ctx with _bHaveVersionXML := true }
    match xml.installType with
    | none => Except.error typeErrorGetAttribute
    | some cv =>
      let ctx := { ctx with
        _currentVersion := cv,
        _patchHistory := xml.patches,
        _installedModules := xml.products }
      match xml.isConsolePort with
      | none => Except.error typeErrorGetAttribute
      | some port =>
        let ctx := { ctx with _isConsolePort := port }
        match xml.isfServerHost with
        | none => Except.error typeErrorGetAttribute
        | some dom =>
          let ctx := { ctx with tierDomain := some dom }
          match xml.isfAgentHost with
          | none => Except.error typeErrorGetAttribute
          | some eng => Except.ok { ctx with tierEngine := some eng }

/-- Source `_getFromAuthFileIfUnknown(propertyNameInFile, objectProperty)`:
when the cached property is empty, scan the credential file's lines for the
first one starting with `name=` and take the substring after the first `=`
of that line; otherwise keep the cached value. -/
def getFromAuthFileIfUnknown (propertyNameInFile cached contents : String) : String :=
  if cached = "" then
    match (jsSplit contents '\n').find? (fun l => jsStartsWith l (propertyNameInFile ++ "=")) with
    | some l => jsSubstringAfterFirstEq l
    | none => cached
  else cached

/-- Getter `username`. -/
def username (ctx : EnvironmentContext) : String :=
  getFromAuthFileIfUnknown "user" ctx._username ctx.authFileContents

/-- Getter `password`. -/
def password (ctx : EnvironmentContext) : String :=
  getFromAuthFileIfUnknown "password" ctx._password ctx.authFileContents

/-- Getter `remoteConnectionString`. -/
def remoteConnectionString (ctx : EnvironmentContext) : String :=
  getFromAuthFileIfUnknown "remoteConnectString" ctx._remoteConnectString ctx.authFileContents

/-- Getter `remoteCopyString`. -/
def remoteCopyString (ctx : EnvironmentContext) : String :=
  getFromAuthFileIfUnknown "remoteCopyString" ctx._remoteCopyString ctx.authFileContents

/-- Getter `currentVersion`: the inventory value when a `Version.xml` was
parsed, the literal `"Unknown"` otherwise. -/
def currentVersion (ctx : EnvironmentContext) : String :=
  if ctx._bHaveVersionXML then ctx._currentVersion else "Unknown"

/-- Getter `domainHost`: the inventory value when present, else the scan of
the credential file for the first `domain=` line, taking
`line.split("=")[1].split(":")[0]`; `none` models the JS `undefined` that
results when no line matches. -/
def domainHost (ctx : EnvironmentContext) : Option String :=
  match ctx.tierDomain with
  | some h => some h
  | none =>
    match (jsSplit ctx.authFileContents '\n').find? (fun l => jsStartsWith l "domain=") with
    | some l => ((jsSplit l '=').get? 1).bind (fun s => (jsSplit s ':').get? 0)
    | none => none

/-- Getter `domainPort`: the memoized console port when nonempty, else the
scan of the credential file for the first `domain=` line, taking
`line.split("=")[1].split(":")[1]`. -/
def domainPort (ctx : EnvironmentContext) : Option String :=
  if ctx._isConsolePort = "" then
    match (jsSplit ctx.authFileContents '\n').find? (fun l => jsStartsWith l "domain=") with
    | some l => ((jsSplit l '=').get? 1).bind (fun s => (jsSplit s ':').get? 1)
    | none => some ctx._isConsolePort
  else some ctx._isConsolePort

/-- Getter `domain`: `domainHost + ":" + domainPort` with JS coercion of
`undefined` operands. -/
def domain (ctx : EnvironmentContext) : String :=
  jsStr (domainHost ctx) ++ ":" ++ jsStr (domainPort ctx)

/-- Getter `engine`: the inventory value when present, else the scan of the
credential file for the first `server=` line taking `line.split("=")[1]`;
the result is upper-cased, and `none` models the TypeError thrown when the
value is still `undefined` at the `.toUpperCase()` call. -/
def engine (ctx : EnvironmentContext) : Option String :=
  (match ctx.tierEngine with
   | some e => some e
   | none =>
     match (jsSplit ctx.authFileContents '\n').find? (fun l => jsStartsWith l "server=") with
     | some l => (jsSplit l '=').get? 1
     | none => none).map jsToUpperCase

/-- Getter `asbhome`. -/
def asbhome (ctx : EnvironmentContext) : String := ctx._ishome ++ "/ASBNode"

/-- Source `_copyFileRemotely(source, target)`: substitute the placeholders
into the copy template and execute it, or fail fast with exit code `-1`
when no copy template is configured. -/
def copyFileRemotely (ctx : EnvironmentContext) (source target : String) (w : World) :
    OpResult × List Effect :=
  if remoteCopyString ctx ≠ "" then
    let copyCmd := jsReplaceFirst (jsReplaceFirst (remoteCopyString ctx) "__SOURCE__" source)
        "__TARGET__" target
    ((w.exec copyCmd).toOp, [Effect.spawn copyCmd])
  else
    ({ code := -1, stdout := none,
       stderr := " ... no remote copy details found -- unable to copy file." }, [])

/-- Source `_checkForRemoteAuthFile()`: list the well-known remote copy of
the credential file and, when the listing fails, copy the local credential
file over.  Only the effect trace is observable (the source discards the
results). -/
def checkForRemoteAuthFile (ctx : EnvironmentContext) (w : World) : List Effect :=
  let checkCmd := remoteConnectionString ctx ++ " ls ~/.infosvrauth_remoteCopy"
  let result := w.exec checkCmd
  if result.code ≠ 0 then
    Effect.spawn checkCmd :: (copyFileRemotely ctx ctx._authFile ".infosvrauth_remoteCopy" w).2
  else [Effect.spawn checkCmd]

/-- Source `_executeCommandRemotely(command)`: when a connect string is
configured, ensure the remote credential copy exists, rewrite the first
occurrence of the local credential file path in the command to the remote
copy's path, quote the command as a single argument for an `ssh`-style
connect string (append it bare otherwise), and execute; when no connect
string is configured, fail fast with exit code `-1` and no spawn. -/
def executeCommandRemotely (ctx : EnvironmentContext) (command : String) (w : World) :
    OpResult × List Effect :=
  if remoteConnectionString ctx ≠ "" then
    let checkEff := checkForRemoteAuthFile ctx w
    let execString :=
      if jsStartsWith (remoteConnectionString ctx) "ssh" then
        remoteConnectionString ctx ++ " \"" ++
          jsReplaceFirst command ctx._authFile "~/.infosvrauth_remoteCopy" ++ "\""
      else
        remoteConnectionString ctx ++ " " ++
          jsReplaceFirst command ctx._authFile "~/.infosvrauth_remoteCopy"
    ((w.exec execString).toOp, checkEff ++ [Effect.spawn execString])
  else
    ({ code := -1, stdout := none,
       stderr := " ... no remote connection details found -- unable to execute command." }, [])

/-- Source `_removeFileRemotely(file)`: when a connect string is configured,
spawn the connect string followed by a space, `rm`, a space and the file
path verbatim; otherwise fail fast with exit code `-1` and no spawn. -/
def removeFileRemotely (ctx : EnvironmentContext) (file : String) (w : World) :
    OpResult × List Effect :=
  if remoteConnectionString ctx ≠ "" then
    let sshString := remoteConnectionString ctx ++ " rm " ++ file
    ((w.exec sshString).toOp, [Effect.spawn sshString])
  else
    ({ code := -1, stdout := none,
       stderr := " ... no remote connection details found -- unable to remove remote file." }, [])

/-- Source `runInfoSvrCommand(command)`: local `shell.exec` when on-host,
else delegation to the remote bridge. -/
def runInfoSvrCommand (ctx : EnvironmentContext) (command : String) (w : World) :
    OpResult × List Effect :=
  if ctx._bOnHost then ((w.exec command).toOp, [Effect.spawn command])
  else executeCommandRemotely ctx command w

/-- Source `copyFile(source, target)`: local `shell.cp` when on-host, else
delegation to the remote bridge. -/
def copyFile (ctx : EnvironmentContext) (source target : String) (w : World) :
    OpResult × List Effect :=
  if ctx._bOnHost then ((w.cp source target).toOp, [Effect.localCopy source target])
  else copyFileRemotely ctx source target w

/-- Source `removeFile(file)`: local `shell.rm` when on-host, else
delegation to the remote bridge. -/
def removeFile (ctx : EnvironmentContext) (file : String) (w : World) :
    OpResult × List Effect :=
  if ctx._bOnHost then ((w.rm file).toOp, [Effect.localRemove file])
  else removeFileRemotely ctx file w

/-- Source `createAuthFileFromParams(username, password, file)`: remembers
the clear password, refuses with a thrown error before any external call
when not on-host, otherwise runs the encryption command, builds the
credential file data exactly as the source concatenates it (no newline of
its own after the password value: the encryption output's trailing newline
is relied upon) and writes the file.  The `engine` getter's possible
TypeError (`undefined.toUpperCase()`) is surfaced as an error after the
encryption spawn. -/
def createAuthFileFromParams (ctx0 : EnvironmentContext) (username_ password_ file : String)
    (w : World) : Except String Unit × EnvironmentContext × List Effect :=
  let encryptCmd := asbhome ctx0 ++ "/bin/encrypt.sh " ++ password_
  let ctx1 := { ctx0 with _clearPassword := password_ }
  if ctx1._bOnHost = false then
    (Except.error "An authorisation file can only be created on Information Server host itself.",
     ctx1, [])
  else
    let result := w.exec encryptCmd
    let ctx2 := { ctx1 with
      _username := username_,
      _password := jsReplaceFirst result.stdout "\n" "" }
    match engine ctx2 with
    | none =>
      (Except.error "TypeError: Cannot read property toUpperCase of undefined", ctx2,
       [Effect.spawn encryptCmd])
    | some eng =>
      let data := "user=" ++ username_ ++ "\n" ++ "password=" ++ result.stdout ++
        "domain=" ++ domain ctx2 ++ "\n" ++ "server=" ++ eng ++ "\n"
      (Except.ok (), { ctx2 with _authFile := file, authFileContents := data },
       [Effect.spawn encryptCmd, Effect.writeFile file data])

/-- Source `addRemoteConnectionDetailsToAuthFile(file, accessType, username,
privateKey, hostOrContainer, port)`: build the connect/copy templates for
the access type (SSH with optional port flag, DOCKER ignoring key and port)
and append both, bare, to the file via two `fs.appendFileSync` calls.
`fileContents` is the contents of `file` before the call. -/
def addRemoteConnectionDetailsToAuthFile (ctx : EnvironmentContext)
    (file fileContents accessType username_ privateKey hostOrContainer : String)
    (port : Option String) : EnvironmentContext × List Effect :=
  let cs : String × String :=
    if accessType = "SSH" then
      let connectString := "ssh -i " ++ privateKey ++ " " ++ username_ ++ "@" ++ hostOrContainer
      let copyString := "scp -i " ++ privateKey ++ " __SOURCE__ " ++ username_ ++ "@" ++
        hostOrContainer ++ ":__TARGET__"
      let connectString :=
        match port with
        | some p => connectString ++ " -p " ++ p
        | none => connectString
      (connectString, copyString)
    else if accessType = "DOCKER" then
      ("docker exec -i " ++ hostOrContainer,
       "docker cp __SOURCE__ " ++ hostOrContainer ++ ":__TARGET__")
    else ("", "")
  ({ ctx with
      _remoteConnectString := cs.1,
      _remoteCopyString := cs.2,
      _authFile := file,
      authFileContents := fileContents ++ cs.1 ++ cs.2 },
   [Effect.appendFile file cs.1, Effect.appendFile file cs.2])

end EnvironmentContext

/-- A list is a `isPrefixOf` of itself followed by anything. -/
theorem isPrefixOf_append_self (a b : List Char) : List.isPrefixOf a (a ++ b) = true := by
  simp

/-- String concatenation concatenates the underlying character lists. -/
theorem str_data_append (s t : String) : (s ++ t).data = s.data ++ t.data := by
  cases s; cases t; rfl

/-- A string starts with any prefix it was built from by concatenation. -/
theorem jsStartsWith_append (p v : String) : jsStartsWith (p ++ v) p = true := by
  unfold jsStartsWith
  rw [str_data_append]
  exact isPrefixOf_append_self p.data v.data

/-- `splitAtFirstOcc` on a one-character pattern splits at the first
occurrence of that character. -/
theorem splitAtFirstOcc_char (c : Char) :
    ∀ (pre rest : List Char), c ∉ pre →
      splitAtFirstOcc [c] (pre ++ c :: rest) = some (pre, rest)
  | [], rest, _ => by simp [splitAtFirstOcc, List.isPrefixOf]
  | a :: pre', rest, h => by
    have hne : ¬ (c = a) := fun hca => h (hca ▸ List.mem_cons_self a pre')
    have hnm : c ∉ pre' := fun hm => h (List.mem_cons_of_mem a hm)
    have ih := splitAtFirstOcc_char c pre' rest hnm
    have hpre : List.isPrefixOf [c] (a :: (pre' ++ c :: rest)) = false := by
      simp [List.isPrefixOf_cons₂, hne]
    simp [splitAtFirstOcc, hpre, ih]

/-- Taking the substring after the first `=` of `name=value` returns the full
value, even when the value itself contains `=`, provided the key has none. -/
theorem jsSubstringAfterFirstEq_concat (name v : String) (h : '=' ∉ name.data) :
    jsSubstringAfterFirstEq (name ++ "=" ++ v) = v := by
  unfold jsSubstringAfterFirstEq
  have hd : (name ++ "=" ++ v).data = name.data ++ '=' :: v.data := by
    rw [str_data_append, str_data_append]
    simp
  rw [hd, splitAtFirstOcc_char '=' name.data v.data h]

/-- `List.find?` returns the first element satisfying the predicate: earlier
non-matching elements are skipped and later elements are never consulted. -/
theorem find?_first {α : Type} (p : α → Bool) :
    ∀ (l1 : List α) (x : α) (l2 : List α),
      (∀ y ∈ l1, p y = false) → p x = true →
      List.find? p (l1 ++ x :: l2) = some x
  | [], x, l2, _, hx => by simp [List.find?, hx]
  | a :: l1', x, l2, h1, hx => by
    have ha : p a = false := h1 a (List.mem_cons_self a l1')
    have h1' : ∀ y ∈ l1', p y = false := fun y hy => h1 y (List.mem_cons_of_mem a hy)
    simp only [List.cons_append, List.find?, ha]
    exact find?_first p l1' x l2 h1' hx

/-- When the first occurrence of the pattern splits the subject into `a` and
`b`, the JS first-occurrence replace yields `a ++ rep ++ b`. -/
theorem jsReplaceFirst_of_split (s pat rep a b : String)
    (h : splitAtFirstOcc pat.data s.data = some (a.data, b.data)) :
    jsReplaceFirst s pat rep = a ++ rep ++ b := by
  unfold jsReplaceFirst
  rw [h]

/-- Oracle world whose external calls all succeed with empty output. -/
def wTest : World where
  exec := fun _ => { code := 0, stdout := "", stderr := "" }
  cp := fun _ _ => { code := 0, stdout := "", stderr := "" }
  rm := fun _ => { code := 0, stdout := "", stderr := "" }

/-- A context off-host, with no inventory, no cached values and a minimal
credential file that configures no remote connection. -/
def ctxBase : EnvironmentContext where
  _bOnHost := false
  _bHaveVersionXML := false
  _ishome := "/opt/IBM/InformationServer"
  _dshome := "/opt/IBM/InformationServer/Server/DSEngine"
  _authFile := "/home/u/.infosvrauth"
  authFileContents := "user=isadmin\n"
  _remoteConnectString := ""
  _remoteCopyString := ""
  _username := ""
  _password := ""
  _clearPassword := ""
  _currentVersion := ""
  _isConsolePort := ""
  tierDomain := none
  tierEngine := none
  _patchHistory := []
  _installedModules := []

/-- A context like `ctxBase` but with an SSH connect string already cached
(as `addRemoteConnectionDetailsToAuthFile` leaves it in memory). -/
def ctxSSH : EnvironmentContext :=
  { ctxBase with _remoteConnectString := "ssh -i k u@h" }

/-- A context like `ctxBase` on-host. -/
def ctxOnHost : EnvironmentContext := { ctxBase with _bOnHost := true }

/-- C1: `runInfoSvrCommand`, `copyFile` and `removeFile` route to direct
local execution (local shell command, local copy, local remove) when the
context resolved on-host at construction, and delegate to the corresponding
Remote Execution Bridge operation (`_executeCommandRemotely`,
`_copyFileRemotely`, `_removeFileRemotely`) when not on-host. -/
theorem claim_C1_routing (ctx : EnvironmentContext) (cmd source target file : String) (w : World) :
    (ctx._bOnHost = true →
      ctx.runInfoSvrCommand cmd w = ((w.exec cmd).toOp, [Effect.spawn cmd]) ∧
      ctx.copyFile source target w =
        ((w.cp source target).toOp, [Effect.localCopy source target]) ∧
      ctx.removeFile file w = ((w.rm file).toOp, [Effect.localRemove file])) ∧
    (ctx._bOnHost = false →
      ctx.runInfoSvrCommand cmd w = ctx.executeCommandRemotely cmd w ∧
      ctx.copyFile source target w = ctx.copyFileRemotely source target w ∧
      ctx.removeFile file w = ctx.removeFileRemotely file w) := by
  constructor
  · intro h
    refine ⟨?_, ?_, ?_⟩ <;>
      simp [EnvironmentContext.runInfoSvrCommand, EnvironmentContext.copyFile,
        EnvironmentContext.removeFile, h]
  · intro h
    refine ⟨?_, ?_, ?_⟩ <;>
      simp [EnvironmentContext.runInfoSvrCommand, EnvironmentContext.copyFile,
        EnvironmentContext.removeFile, h]

/-- C1 witness: the routing theorem applied to a concrete on-host context and
a concrete off-host context. -/
theorem claim_C1_routing_witness :
    EnvironmentContext.runInfoSvrCommand ctxOnHost "ls" wTest =
      ((wTest.exec "ls").toOp, [Effect.spawn "ls"]) ∧
    EnvironmentContext.copyFile ctxOnHost "a" "b" wTest =
      ((wTest.cp "a" "b").toOp, [Effect.localCopy "a" "b"]) ∧
    EnvironmentContext.removeFile ctxOnHost "f" wTest =
      ((wTest.rm "f").toOp, [Effect.localRemove "f"]) ∧
    EnvironmentContext.runInfoSvrCommand ctxBase "ls" wTest =
      EnvironmentContext.executeCommandRemotely ctxBase "ls" wTest ∧
    EnvironmentContext.copyFile ctxBase "a" "b" wTest =
      EnvironmentContext.copyFileRemotely ctxBase "a" "b" wTest ∧
    EnvironmentContext.removeFile ctxBase "f" wTest =
      EnvironmentContext.removeFileRemotely ctxBase "f" wTest := by
  have hOn := (claim_C1_routing ctxOnHost "ls" "a" "b" "f" wTest).1 rfl
  have hOff := (claim_C1_routing ctxBase "ls" "a" "b" "f" wTest).2 rfl
  exact ⟨hOn.1, hOn.2.1, hOn.2.2, hOff.1, hOff.2.1, hOff.2.2⟩

/-- C2: off-host with an empty resolved connect string, `runInfoSvrCommand`
returns exit code `-1` with a descriptive stderr and spawns nothing; the
same fail-fast holds for the remote copy when the copy string is empty and
for the remote remove when the connect string is empty. -/
theorem claim_C2_fail_fast (ctx : EnvironmentContext) (cmd source target file : String)
    (w : World) :
    (ctx._bOnHost = false → ctx.remoteConnectionString = "" →
      ctx.runInfoSvrCommand cmd w =
        ({ code := -1, stdout := none,
           stderr := " ... no remote connection details found -- unable to execute command." },
         [])) ∧
    (ctx.remoteCopyString = "" →
      ctx.copyFileRemotely source target w =
        ({ code := -1, stdout := none,
           stderr := " ... no remote copy details found -- unable to copy file." }, [])) ∧
    (ctx.remoteConnectionString = "" →
      ctx.removeFileRemotely file w =
        ({ code := -1, stdout := none,
           stderr := " ... no remote connection details found -- unable to remove remote file." },
         [])) := by
  refine ⟨fun h1 h2 => ?_, fun h2 => ?_, fun h2 => ?_⟩
  · simp [EnvironmentContext.runInfoSvrCommand, EnvironmentContext.executeCommandRemotely, h1, h2]
  · simp [EnvironmentContext.copyFileRemotely, h2]
  · simp [EnvironmentContext.removeFileRemotely, h2]

/-- C2 witness: the fail-fast theorem applied to a concrete off-host context
whose credential file configures no remote connect or copy string. -/
theorem claim_C2_fail_fast_witness :
    EnvironmentContext.runInfoSvrCommand ctxBase "ls" wTest =
      ({ code := -1, stdout := none,
         stderr := " ... no remote connection details found -- unable to execute command." },
       []) ∧
    EnvironmentContext.copyFileRemotely ctxBase "a" "b" wTest =
      ({ code := -1, stdout := none,
         stderr := " ... no remote copy details found -- unable to copy file." }, []) ∧
    EnvironmentContext.removeFileRemotely ctxBase "f" wTest =
      ({ code := -1, stdout := none,
         stderr := " ... no remote connection details found -- unable to remove remote file." },
       []) := by
  have h := claim_C2_fail_fast ctxBase "ls" "a" "b" "f" wTest
  exact ⟨h.1 rfl (by decide), h.2.1 (by decide), h.2.2 (by decide)⟩

/-- C3: `createAuthFileFromParams` invoked off-host fails with the
host-required error, performs no external call (in particular does not run
the encryption command) and writes no file; only the in-memory clear
password is recorded before the check. -/
theorem claim_C3_createAuthFile_offHost (ctx : EnvironmentContext) (u pw f : String)
    (w : World) :
    ctx._bOnHost = false →
    ctx.createAuthFileFromParams u pw f w =
      (Except.error "An authorisation file can only be created on Information Server host itself.",
       { ctx with _clearPassword := pw }, []) := by
  intro h
  simp [EnvironmentContext.createAuthFileFromParams, h]

/-- C3 witness: the host-required theorem applied to a concrete off-host
context. -/
theorem claim_C3_createAuthFile_offHost_witness :
    ctxBase._bOnHost = false ∧
    EnvironmentContext.createAuthFileFromParams ctxBase "isadmin" "secret" "/tmp/f" wTest =
      (Except.error "An authorisation file can only be created on Information Server host itself.",
       { ctxBase with _clearPassword := "secret" }, []) :=
  ⟨rfl, claim_C3_createAuthFile_offHost ctxBase "isadmin" "secret" "/tmp/f" wTest rfl⟩

/-- C5: the lazily resolving `password` accessor returns the substring of
the matching credential-file line after the first `=` delimiter, so a
password value that itself contains `=` characters is returned in full. -/
theorem claim_C5_password_embedded_eq (ctx : EnvironmentContext) (v : String)
    (lines1 lines2 : List String) :
    ctx._password = "" →
    jsSplit ctx.authFileContents '\n' = lines1 ++ ("password=" ++ v) :: lines2 →
    (∀ x ∈ lines1, jsStartsWith x "password=" = false) →
    ctx.password = v := by
  intro h0 hsplit hl
  have hm : jsStartsWith ("password=" ++ v) "password=" = true :=
    jsStartsWith_append "password=" v
  unfold EnvironmentContext.password EnvironmentContext.getFromAuthFileIfUnknown
  rw [h0, if_pos rfl, hsplit,
    find?_first (fun l => jsStartsWith l ("password" ++ "=")) lines1 ("password=" ++ v) lines2
      hl hm]
  show jsSubstringAfterFirstEq ("password=" ++ v) = v
  have hname : ("password=" : String) = "password" ++ "=" := rfl
  rw [hname, jsSubstringAfterFirstEq_concat "password" v (by decide)]

/-- C5 witness: the embedded-equals theorem applied to the concrete
credential file of the specification's end-to-end example, whose password
value is `abc=def`. -/
theorem claim_C5_password_embedded_eq_witness :
    EnvironmentContext.password
      { ctxBase with
          authFileContents := "user=isadmin\npassword=abc=def\ndomain=host2:9445\nserver=eng2\n" } =
      "abc=def" := by
  have h := claim_C5_password_embedded_eq
    { ctxBase with
        authFileContents := "user=isadmin\npassword=abc=def\ndomain=host2:9445\nserver=eng2\n" }
    "abc=def" ["user=isadmin"] ["domain=host2:9445", "server=eng2", ""] rfl (by decide) (by decide)
  exact h

/-- C6: with a configured connect string, `_executeCommandRemotely` rewrites
the first occurrence of the local credential file path inside the command to
the well-known remote copy location `~/.infosvrauth_remoteCopy`; for an
ssh-style connect string the rewritten command is wrapped in double quotes
as a single argument appended to the connect string, for a non-ssh connect
string it is appended after a space without quoting.  The hypothesis on
`splitAtFirstOcc` states that the first occurrence of the credential path
splits the command into `pre` and `post`. -/
theorem claim_C6_ssh_rewrite_and_quote (ctx : EnvironmentContext) (command pre post : String)
    (w : World) :
    ctx.remoteConnectionString ≠ "" →
    splitAtFirstOcc ctx._authFile.data command.data = some (pre.data, post.data) →
    (jsStartsWith ctx.remoteConnectionString "ssh" = true →
      ctx.executeCommandRemotely command w =
        ((w.exec (ctx.remoteConnectionString ++ " \"" ++
            (pre ++ "~/.infosvrauth_remoteCopy" ++ post) ++ "\"")).toOp,
         ctx.checkForRemoteAuthFile w ++
           [Effect.spawn (ctx.remoteConnectionString ++ " \"" ++
             (pre ++ "~/.infosvrauth_remoteCopy" ++ post) ++ "\"")])) ∧
    (jsStartsWith ctx.remoteConnectionString "ssh" = false →
      ctx.executeCommandRemotely command w =
        ((w.exec (ctx.remoteConnectionString ++ " " ++
            (pre ++ "~/.infosvrauth_remoteCopy" ++ post))).toOp,
         ctx.checkForRemoteAuthFile w ++
           [Effect.spawn (ctx.remoteConnectionString ++ " " ++
             (pre ++ "~/.infosvrauth_remoteCopy" ++ post))])) := by
  intro h1 h2
  have hrw : jsReplaceFirst command ctx._authFile "~/.infosvrauth_remoteCopy" =
      pre ++ "~/.infosvrauth_remoteCopy" ++ post :=
    jsReplaceFirst_of_split command ctx._authFile "~/.infosvrauth_remoteCopy" pre post h2
  constructor
  · intro hssh
    simp [EnvironmentContext.executeCommandRemotely, h1, hssh, hrw]
  · intro hssh
    simp [EnvironmentContext.executeCommandRemotely, h1, hssh, hrw]

/-- C6 witness: the rewrite-and-quote theorem applied to a concrete context
with an ssh connect string and a command embedding the local credential file
path. -/
theorem claim_C6_ssh_rewrite_and_quote_witness :
    EnvironmentContext.executeCommandRemotely ctxSSH "cat /home/u/.infosvrauth" wTest =
      ((wTest.exec (EnvironmentContext.remoteConnectionString ctxSSH ++ " \"" ++
          ("cat " ++ "~/.infosvrauth_remoteCopy" ++ "") ++ "\"")).toOp,
       EnvironmentContext.checkForRemoteAuthFile ctxSSH wTest ++
         [Effect.spawn (EnvironmentContext.remoteConnectionString ctxSSH ++ " \"" ++
           ("cat " ++ "~/.infosvrauth_remoteCopy" ++ "") ++ "\"")]) ∧
    EnvironmentContext.remoteConnectionString ctxSSH = "ssh -i k u@h" :=
  ⟨(claim_C6_ssh_rewrite_and_quote ctxSSH "cat /home/u/.infosvrauth" "cat " "" wTest
      (by decide) (by decide)).1 (by decide),
   by decide⟩

/-- C9: every lazy accessor scanning the credential file (`username`,
`password`, `remoteConnectionString`, `remoteCopyString`, and the
domain-host, domain-port and engine fallback scans) returns the value
extracted from the first line matching its key prefix; lines after the
first match are never consulted. -/
theorem claim_C9_first_match_wins :
    (∀ (ctx : EnvironmentContext) (lines1 lines2 : List String) (l : String),
      ctx._username = "" →
      jsSplit ctx.authFileContents '\n' = lines1 ++ l :: lines2 →
      (∀ x ∈ lines1, jsStartsWith x "user=" = false) → jsStartsWith l "user=" = true →
      ctx.username = jsSubstringAfterFirstEq l) ∧
    (∀ (ctx : EnvironmentContext) (lines1 lines2 : List String) (l : String),
      ctx._password = "" →
      jsSplit ctx.authFileContents '\n' = lines1 ++ l :: lines2 →
      (∀ x ∈ lines1, jsStartsWith x "password=" = false) → jsStartsWith l "password=" = true →
      ctx.password = jsSubstringAfterFirstEq l) ∧
    (∀ (ctx : EnvironmentContext) (lines1 lines2 : List String) (l : String),
      ctx._remoteConnectString = "" →
      jsSplit ctx.authFileContents '\n' = lines1 ++ l :: lines2 →
      (∀ x ∈ lines1, jsStartsWith x "remoteConnectString=" = false) →
      jsStartsWith l "remoteConnectString=" = true →
      ctx.remoteConnectionString = jsSubstringAfterFirstEq l) ∧
    (∀ (ctx : EnvironmentContext) (lines1 lines2 : List String) (l : String),
      ctx._remoteCopyString = "" →
      jsSplit ctx.authFileContents '\n' = lines1 ++ l :: lines2 →
      (∀ x ∈ lines1, jsStartsWith x "remoteCopyString=" = false) →
      jsStartsWith l "remoteCopyString=" = true →
      ctx.remoteCopyString = jsSubstringAfterFirstEq l) ∧
    (∀ (ctx : EnvironmentContext) (lines1 lines2 : List String) (l : String),
      ctx.tierDomain = none →
      jsSplit ctx.authFileContents '\n' = lines1 ++ l :: lines2 →
      (∀ x ∈ lines1, jsStartsWith x "domain=" = false) → jsStartsWith l "domain=" = true →
      ctx.domainHost = ((jsSplit l '=').get? 1).bind (fun s => (jsSplit s ':').get? 0)) ∧
    (∀ (ctx : EnvironmentContext) (lines1 lines2 : List String) (l : String),
      ctx._isConsolePort = "" →
      jsSplit ctx.authFileContents '\n' = lines1 ++ l :: lines2 →
      (∀ x ∈ lines1, jsStartsWith x "domain=" = false) → jsStartsWith l "domain=" = true →
      ctx.domainPort = ((jsSplit l '=').get? 1).bind (fun s => (jsSplit s ':').get? 1)) ∧
    (∀ (ctx : EnvironmentContext) (lines1 lines2 : List String) (l : String),
      ctx.tierEngine = none →
      jsSplit ctx.authFileContents '\n' = lines1 ++ l :: lines2 →
      (∀ x ∈ lines1, jsStartsWith x "server=" = false) → jsStartsWith l "server=" = true →
      ctx.engine = ((jsSplit l '=').get? 1).map jsToUpperCase) := by
  refine ⟨?_, ?_, ?_, ?_, ?_, ?_, ?_⟩
  · intro ctx lines1 lines2 l h0 hsplit hl hm
    unfold EnvironmentContext.username EnvironmentContext.getFromAuthFileIfUnknown
    rw [h0, if_pos rfl, hsplit,
      find?_first (fun x => jsStartsWith x ("user" ++ "=")) lines1 l lines2 hl hm]
  · intro ctx lines1 lines2 l h0 hsplit hl hm
    unfold EnvironmentContext.password EnvironmentContext.getFromAuthFileIfUnknown
    rw [h0, if_pos rfl, hsplit,
      find?_first (fun x => jsStartsWith x ("password" ++ "=")) lines1 l lines2 hl hm]
  · intro ctx lines1 lines2 l h0 hsplit hl hm
    unfold EnvironmentContext.remoteConnectionString EnvironmentContext.getFromAuthFileIfUnknown
    rw [h0, if_pos rfl, hsplit,
      find?_first (fun x => jsStartsWith x ("remoteConnectString" ++ "=")) lines1 l lines2 hl hm]
  · intro ctx lines1 lines2 l h0 hsplit hl hm
    unfold EnvironmentContext.remoteCopyString EnvironmentContext.getFromAuthFileIfUnknown
    rw [h0, if_pos rfl, hsplit,
      find?_first (fun x => jsStartsWith x ("remoteCopyString" ++ "=")) lines1 l lines2 hl hm]
  · intro ctx lines1 lines2 l h0 hsplit hl hm
    unfold EnvironmentContext.domainHost
    rw [h0, hsplit, find?_first (fun x => jsStartsWith x "domain=") lines1 l lines2 hl hm]
  · intro ctx lines1 lines2 l h0 hsplit hl hm
    unfold EnvironmentContext.domainPort
    rw [if_pos h0, hsplit, find?_first (fun x => jsStartsWith x "domain=") lines1 l lines2 hl hm]
  · intro ctx lines1 lines2 l h0 hsplit hl hm
    unfold EnvironmentContext.engine
    rw [h0, hsplit, find?_first (fun x => jsStartsWith x "server=") lines1 l lines2 hl hm]

/-- C9 witness: the first-match theorem applied to a credential file holding
two `password=` lines and two `domain=` lines; the accessors return the
values of the first lines only. -/
theorem claim_C9_first_match_wins_witness :
    EnvironmentContext.password
      { ctxBase with authFileContents := "password=first\npassword=second\n" } = "first" ∧
    EnvironmentContext.domainHost
      { ctxBase with authFileContents := "domain=h1:1\ndomain=h2:2\n" } = some "h1" := by
  constructor
  · have h := claim_C9_first_match_wins.2.1
      { ctxBase with authFileContents := "password=first\npassword=second\n" }
      [] ["password=second", ""] "password=first" rfl (by decide) (by simp) (by decide)
    rw [h]
    decide
  · have h := claim_C9_first_match_wins.2.2.2.2.1
      { ctxBase with authFileContents := "domain=h1:1\ndomain=h2:2\n" }
      [] ["domain=h2:2", ""] "domain=h1:1" rfl (by decide) (by simp) (by decide)
    rw [h]
    decide

/-- An inventory document whose `is.console.port` persisted variable is
missing while every other required node is present. -/
def xmlMissingPort : InventoryXML where
  installType := some "11.7"
  patches := [{ patchId := "patch1", patchDate := "2020-01-01" }]
  products := ["p1", "p2"]
  isConsolePort := none
  isfServerHost := some "host1"
  isfAgentHost := some "eng1"

/-- C4 counterexample: on a concrete inventory document missing the
`is.console.port` node, constructor processing throws (an error result), so
the caller does not receive a context fallen back to credential-file-derived
values, contrary to the claim's fallback clause. -/
theorem claim_C4_counterexample :
    EnvironmentContext.applyInventory ctxBase (some xmlMissingPort) =
      Except.error EnvironmentContext.typeErrorGetAttribute ∧
    EnvironmentContext.applyInventory ctxBase (some xmlMissingPort) ≠ Except.ok ctxBase := by
  constructor
  · rfl
  · intro h
    rw [show EnvironmentContext.applyInventory ctxBase (some xmlMissingPort) =
        Except.error EnvironmentContext.typeErrorGetAttribute from rfl] at h
    exact Except.noConfusion h

/-- C4 amended: for every inventory document missing any required node
(the install-type node or any of the three persisted variables), constructor
processing fails with the thrown type error and exposes no partially
populated context; the credential-file fallback is taken only when no
document was retrieved at all (the `none` case), in which case the context
is returned unchanged. -/
theorem claim_C4_missing_node_throws (ctx : EnvironmentContext) (xml : InventoryXML)
    (h : xml.installType = none ∨ xml.isConsolePort = none ∨
      xml.isfServerHost = none ∨ xml.isfAgentHost = none) :
    EnvironmentContext.applyInventory ctx (some xml) =
      Except.error EnvironmentContext.typeErrorGetAttribute ∧
    (∀ ctx2 : EnvironmentContext, EnvironmentContext.applyInventory ctx2 none =
      Except.ok ctx2) := by
  refine ⟨?_, fun ctx2 => rfl⟩
  obtain ⟨it, pats, prods, icp, ish, iah⟩ := xml
  rcases h with h | h | h | h <;> subst h
  · rfl
  · cases it <;> rfl
  · cases it <;> cases icp <;> rfl
  · cases it <;> cases icp <;> cases ish <;> rfl

/-- C4 witness: the amended theorem applied to the concrete document missing
`is.console.port`. -/
theorem claim_C4_missing_node_throws_witness :
    xmlMissingPort.isConsolePort = none ∧
    EnvironmentContext.applyInventory ctxBase (some xmlMissingPort) =
      Except.error EnvironmentContext.typeErrorGetAttribute :=
  ⟨rfl, (claim_C4_missing_node_throws ctxBase xmlMissingPort (Or.inr (Or.inl rfl))).1⟩

/-- C7 evaluation: `addRemoteConnectionDetailsToAuthFile` appends the built
SSH templates to the file bare — with no `remoteConnectString=` or
`remoteCopyString=` key, and no newline between them — while keeping them in
memory; a later lazy read of either field from the resulting file therefore
returns the empty string, not the templates: the append-then-read round trip
the claim states does not hold. -/
theorem claim_C7_append_read_round_trip_fails :
    (EnvironmentContext.addRemoteConnectionDetailsToAuthFile ctxBase "/home/u/.infosvrauth"
        "user=isadmin\n" "SSH" "u" "k" "h" none).1.authFileContents =
      "user=isadmin\nssh -i k u@hscp -i k __SOURCE__ u@h:__TARGET__" ∧
    (EnvironmentContext.addRemoteConnectionDetailsToAuthFile ctxBase "/home/u/.infosvrauth"
        "user=isadmin\n" "SSH" "u" "k" "h" none).1._remoteConnectString = "ssh -i k u@h" ∧
    EnvironmentContext.getFromAuthFileIfUnknown "remoteConnectString" ""
      "user=isadmin\nssh -i k u@hscp -i k __SOURCE__ u@h:__TARGET__" = "" ∧
    EnvironmentContext.getFromAuthFileIfUnknown "remoteCopyString" ""
      "user=isadmin\nssh -i k u@hscp -i k __SOURCE__ u@h:__TARGET__" = "" := by
  exact ⟨by decide, by decide, by decide, by decide⟩

/-- C8 counterexample: a concrete context without a parsed inventory reports
version `"Unknown"`, not the claimed lowercase `"unknown"`. -/
theorem claim_C8_counterexample :
    ctxBase._bHaveVersionXML = false ∧
    EnvironmentContext.currentVersion ctxBase ≠ "unknown" :=
  ⟨rfl, by decide⟩

/-- C8 amended: for every context without a parsed inventory (no snapshot
present), the `currentVersion` accessor returns the string `"Unknown"`
(capitalized). -/
theorem claim_C8_currentVersion_Unknown (ctx : EnvironmentContext)
    (h : ctx._bHaveVersionXML = false) :
    EnvironmentContext.currentVersion ctx = "Unknown" := by
  simp [EnvironmentContext.currentVersion, h]

/-- C8 witness: the amended theorem applied to a concrete context without
inventory. -/
theorem claim_C8_currentVersion_Unknown_witness :
    ctxBase._bHaveVersionXML = false ∧
    EnvironmentContext.currentVersion ctxBase = "Unknown" :=
  ⟨rfl, claim_C8_currentVersion_Unknown ctxBase rfl⟩

/-- C10: off-host with a nonempty connect string, `removeFile` spawns exactly
one command, the connect string followed by a space, `rm`, a space and the
file path verbatim: no credential-path rewriting, no quote-wrapping for
ssh-style connect strings and no check-then-copy provisioning. -/
theorem claim_C10_removeFile_verbatim (ctx : EnvironmentContext) (file : String) (w : World) :
    ctx._bOnHost = false → ctx.remoteConnectionString ≠ "" →
    ctx.removeFile file w =
      ((w.exec (ctx.remoteConnectionString ++ " rm " ++ file)).toOp,
       [Effect.spawn (ctx.remoteConnectionString ++ " rm " ++ file)]) := by
  intro h1 h2
  simp [EnvironmentContext.removeFile, EnvironmentContext.removeFileRemotely, h1, h2]

/-- C10 witness: the verbatim-remove theorem applied to a concrete context
with an ssh-style connect string and a file path equal to the local
credential file path: the spawned command still contains that path verbatim
and no other effect occurs. -/
theorem claim_C10_removeFile_verbatim_witness :
    EnvironmentContext.removeFile ctxSSH "/home/u/.infosvrauth" wTest =
      ((wTest.exec (EnvironmentContext.remoteConnectionString ctxSSH ++ " rm " ++
          "/home/u/.infosvrauth")).toOp,
       [Effect.spawn (EnvironmentContext.remoteConnectionString ctxSSH ++ " rm " ++
          "/home/u/.infosvrauth")]) ∧
    EnvironmentContext.remoteConnectionString ctxSSH = "ssh -i k u@h" :=
  ⟨claim_C10_removeFile_verbatim ctxSSH "/home/u/.infosvrauth" wTest rfl (by decide), by decide⟩
